import Mathlib

/-!
Verification of the depth-colormap transform and the device-acquisition
protocol implemented by the arena_api example scripts
(src/arena_api_examples/py_helios_heatmap.py, py_acquisition.py,
py_save_recorder.py, py_save_writer_png.py).

The Python arithmetic is embedded over exact rationals; Python's `int()`
conversion (truncation toward zero), the `ctypes.c_int16` pointer cast and
the `ctypes.c_byte` array cells are modelled explicitly.
-/

/-- Python `int()` applied to an exact numeric value: truncation toward zero. -/
def pyInt (q : ℚ) : ℤ := if 0 ≤ q then ⌊q⌋ else ⌈q⌉

/-- Value read for a raw unsigned 16-bit channel through the
`ctypes.cast(buffer_3d.pdata, ctypes.POINTER(ctypes.c_int16))` view used by
both colorize functions of py_helios_heatmap.py. -/
def int16OfRaw (n : ℕ) : ℤ := if n < 32768 then (n : ℤ) else (n : ℤ) - 65536

/-- Memory byte stored by assigning an integer to a `ctypes.c_byte` array
cell: the low 8 bits of the value. -/
def byteOf (v : ℤ) : ℕ := (v % 256).toNat

/-! Constants of py_helios_heatmap.py (lines 32-38). -/

def RGB_MIN : ℚ := 0

def RGB_MAX : ℚ := 255

def COLOR_BORDER_RED : ℚ := 0

def COLOR_BORDER_YELLOW : ℚ := 375

def COLOR_BORDER_GREEN : ℚ := 750

def COLOR_BORDER_CYAN : ℚ := 1125

def COLOR_BORDER_BLUE : ℚ := 1500

/-- py_helios_heatmap.py, `get_rgb_colors_of_point_at_distance(z)`
(lines 103-137): piecewise-linear colormap from a z distance in
millimeters to an (red, green, blue) triple of Python ints. -/
def get_rgb_colors_of_point_at_distance (z : ℚ) : ℤ × ℤ × ℤ :=
  if COLOR_BORDER_RED ≤ z ∧ z < COLOR_BORDER_YELLOW then
    let yellow_percentage := z / COLOR_BORDER_YELLOW
    (pyInt RGB_MAX, pyInt (RGB_MAX * yellow_percentage), pyInt RGB_MIN)
  else if COLOR_BORDER_YELLOW ≤ z ∧ z < COLOR_BORDER_GREEN then
    let green_percentage := (z - COLOR_BORDER_YELLOW) / COLOR_BORDER_YELLOW
    (pyInt (RGB_MAX - RGB_MAX * green_percentage), pyInt RGB_MAX, pyInt RGB_MIN)
  else if COLOR_BORDER_GREEN ≤ z ∧ z < COLOR_BORDER_CYAN then
    let cyan_percentage := (z - COLOR_BORDER_GREEN) / COLOR_BORDER_YELLOW
    (pyInt RGB_MIN, pyInt RGB_MAX, pyInt (RGB_MAX * cyan_percentage))
  else if COLOR_BORDER_CYAN ≤ z ∧ z ≤ COLOR_BORDER_BLUE then
    let blue_percentage := (z - COLOR_BORDER_CYAN) / COLOR_BORDER_YELLOW
    (pyInt RGB_MIN, pyInt (RGB_MAX - RGB_MAX * blue_percentage), pyInt RGB_MAX)
  else
    (pyInt RGB_MIN, pyInt RGB_MIN, pyInt RGB_MIN)

/-! Helper lemmas about the Python primitives. -/

theorem pyInt_intCast (n : ℤ) : pyInt (n : ℚ) = n := by
  unfold pyInt
  split
  · exact Int.floor_intCast n
  · exact Int.ceil_intCast n

theorem pyInt_zero : pyInt 0 = 0 := by
  have h := pyInt_intCast 0
  simpa using h

theorem pyInt_255 : pyInt 255 = 255 := by
  have h := pyInt_intCast 255
  simpa using h

theorem pyInt_nonneg {q : ℚ} (h : 0 ≤ q) : 0 ≤ pyInt q := by
  unfold pyInt
  rw [if_pos h]
  exact Int.le_floor.mpr (by exact_mod_cast h)

theorem pyInt_le {q : ℚ} {n : ℤ} (h : q ≤ (n : ℚ)) : pyInt q ≤ n := by
  unfold pyInt
  split
  · have h1 : (⌊q⌋ : ℚ) ≤ (n : ℚ) := le_trans (Int.floor_le q) h
    exact_mod_cast h1
  · exact Int.ceil_le.mpr h

theorem pyInt_eq_zero {q : ℚ} (h1 : -1 < q) (h2 : q < 1) : pyInt q = 0 := by
  unfold pyInt
  split
  · next h =>
    rw [Int.floor_eq_zero_iff]
    exact ⟨h, h2⟩
  · next h =>
    rw [Int.ceil_eq_zero_iff]
    constructor
    · exact h1
    · linarith [not_le.mp h]

theorem pyInt_range255 {q : ℚ} (h0 : 0 ≤ q) (h1 : q ≤ 255) :
    0 ≤ pyInt q ∧ pyInt q ≤ 255 := by
  refine ⟨pyInt_nonneg h0, pyInt_le ?_⟩
  exact_mod_cast h1

/-! Evaluation lemmas for the five branches of the colormap. -/

theorem get_rgb_band1 {z : ℚ} (h0 : 0 ≤ z) (h1 : z < 375) :
    get_rgb_colors_of_point_at_distance z = (255, pyInt (255 * (z / 375)), 0) := by
  unfold get_rgb_colors_of_point_at_distance
  simp only [COLOR_BORDER_RED, COLOR_BORDER_YELLOW, RGB_MAX, RGB_MIN]
  rw [if_pos ⟨h0, h1⟩, pyInt_255, pyInt_zero]

theorem get_rgb_band2 {z : ℚ} (h0 : 375 ≤ z) (h1 : z < 750) :
    get_rgb_colors_of_point_at_distance z
      = (pyInt (255 - 255 * ((z - 375) / 375)), 255, 0) := by
  unfold get_rgb_colors_of_point_at_distance
  simp only [COLOR_BORDER_RED, COLOR_BORDER_YELLOW, COLOR_BORDER_GREEN, RGB_MAX, RGB_MIN]
  rw [if_neg (by rintro ⟨-, hb⟩; linarith), if_pos ⟨h0, h1⟩, pyInt_255, pyInt_zero]

theorem get_rgb_band3 {z : ℚ} (h0 : 750 ≤ z) (h1 : z < 1125) :
    get_rgb_colors_of_point_at_distance z
      = (0, 255, pyInt (255 * ((z - 750) / 375))) := by
  unfold get_rgb_colors_of_point_at_distance
  simp only [COLOR_BORDER_RED, COLOR_BORDER_YELLOW, COLOR_BORDER_GREEN,
    COLOR_BORDER_CYAN, RGB_MAX, RGB_MIN]
  rw [if_neg (by rintro ⟨-, hb⟩; linarith), if_neg (by rintro ⟨-, hb⟩; linarith),
    if_pos ⟨h0, h1⟩, pyInt_255, pyInt_zero]

theorem get_rgb_band4 {z : ℚ} (h0 : 1125 ≤ z) (h1 : z ≤ 1500) :
    get_rgb_colors_of_point_at_distance z
      = (0, pyInt (255 - 255 * ((z - 1125) / 375)), 255) := by
  unfold get_rgb_colors_of_point_at_distance
  simp only [COLOR_BORDER_RED, COLOR_BORDER_YELLOW, COLOR_BORDER_GREEN,
    COLOR_BORDER_CYAN, COLOR_BORDER_BLUE, RGB_MAX, RGB_MIN]
  rw [if_neg (by rintro ⟨-, hb⟩; linarith), if_neg (by rintro ⟨-, hb⟩; linarith),
    if_neg (by rintro ⟨-, hb⟩; linarith), if_pos ⟨h0, h1⟩, pyInt_255, pyInt_zero]

theorem get_rgb_outside {z : ℚ} (h : z < 0 ∨ 1500 < z) :
    get_rgb_colors_of_point_at_distance z = (0, 0, 0) := by
  unfold get_rgb_colors_of_point_at_distance
  simp only [COLOR_BORDER_RED, COLOR_BORDER_YELLOW, COLOR_BORDER_GREEN,
    COLOR_BORDER_CYAN, COLOR_BORDER_BLUE, RGB_MIN]
  rw [if_neg (by rintro ⟨ha, hb⟩; rcases h with h | h <;> linarith),
    if_neg (by rintro ⟨ha, hb⟩; rcases h with h | h <;> linarith),
    if_neg (by rintro ⟨ha, hb⟩; rcases h with h | h <;> linarith),
    if_neg (by rintro ⟨ha, hb⟩; rcases h with h | h <;> linarith), pyInt_zero]

/-- Claim C1: the colormap satisfies the boundary values at the edges of its
domain: z = 0 maps to pure red (255,0,0), z = 1500 maps to pure blue
(0,0,255), and every z outside the interval from 0 to 1500 maps to black
(0,0,0). -/
theorem depth_to_rgb_boundary_values :
    get_rgb_colors_of_point_at_distance 0 = (255, 0, 0) ∧
    get_rgb_colors_of_point_at_distance 1500 = (0, 0, 255) ∧
    ∀ z : ℚ, (z < 0 ∨ 1500 < z) →
      get_rgb_colors_of_point_at_distance z = (0, 0, 0) := by
  refine ⟨?_, ?_, fun z h => get_rgb_outside h⟩
  · rw [get_rgb_band1 le_rfl (by norm_num)]
    have h : (255 : ℚ) * (0 / 375) = ((0 : ℤ) : ℚ) := by norm_num
    rw [h, pyInt_intCast]
  · rw [get_rgb_band4 (by norm_num) le_rfl]
    have h : (255 : ℚ) - 255 * ((1500 - 1125) / 375) = ((0 : ℤ) : ℚ) := by norm_num
    rw [h, pyInt_intCast]

/-- Witness for C1: the out-of-domain clause evaluated at z = 1501 and
z = -1. -/
theorem depth_to_rgb_boundary_values_witness :
    get_rgb_colors_of_point_at_distance 1501 = (0, 0, 0) ∧
    get_rgb_colors_of_point_at_distance (-1) = (0, 0, 0) :=
  ⟨depth_to_rgb_boundary_values.2.2 1501 (Or.inr (by norm_num)),
   depth_to_rgb_boundary_values.2.2 (-1) (Or.inl (by norm_num))⟩

/-- Counterexample to claim C2: at z = 375 the colormap does not return
pure green (0,255,0); band two applies with interpolation fraction 0, so
the result is pure yellow. -/
theorem depth_to_rgb_at_375_not_green :
    get_rgb_colors_of_point_at_distance 375 ≠ (0, 255, 0) := by
  rw [get_rgb_band2 le_rfl (by norm_num)]
  have h : (255 : ℚ) - 255 * ((375 - 375) / 375) = ((255 : ℤ) : ℚ) := by norm_num
  rw [h, pyInt_intCast]
  decide

/-- Claim C2 amended: at the band boundary z = 375 the colormap returns pure
yellow (255,255,0); pure green (0,255,0) first appears at z = 750. -/
theorem depth_to_rgb_at_375_yellow_at_750_green :
    get_rgb_colors_of_point_at_distance 375 = (255, 255, 0) ∧
    get_rgb_colors_of_point_at_distance 750 = (0, 255, 0) := by
  constructor
  · rw [get_rgb_band2 le_rfl (by norm_num)]
    have h : (255 : ℚ) - 255 * ((375 - 375) / 375) = ((255 : ℤ) : ℚ) := by norm_num
    rw [h, pyInt_intCast]
  · rw [get_rgb_band3 le_rfl (by norm_num)]
    have h : (255 : ℚ) * ((750 - 750) / 375) = ((0 : ℤ) : ℚ) := by norm_num
    rw [h, pyInt_intCast]

/-- Claim C5: for every z in the closed interval from 0 to 1500, each of the
three channels returned by the colormap is an integer in the range 0 to 255;
no interpolation step leaves that range. -/
theorem depth_to_rgb_channels_in_range (z : ℚ) (h0 : 0 ≤ z) (h1 : z ≤ 1500) :
    0 ≤ (get_rgb_colors_of_point_at_distance z).1 ∧
    (get_rgb_colors_of_point_at_distance z).1 ≤ 255 ∧
    0 ≤ (get_rgb_colors_of_point_at_distance z).2.1 ∧
    (get_rgb_colors_of_point_at_distance z).2.1 ≤ 255 ∧
    0 ≤ (get_rgb_colors_of_point_at_distance z).2.2 ∧
    (get_rgb_colors_of_point_at_distance z).2.2 ≤ 255 := by
  rcases lt_or_le z 375 with hz | hz
  · rw [get_rgb_band1 h0 hz]
    have hp0 : (0 : ℚ) ≤ z / 375 := by positivity
    have hp1 : z / 375 ≤ 1 := by rw [div_le_one (by norm_num)]; linarith
    have hb := pyInt_range255 (q := 255 * (z / 375)) (by positivity) (by nlinarith)
    exact ⟨by norm_num, by norm_num, hb.1, hb.2, by norm_num, by norm_num⟩
  rcases lt_or_le z 750 with hz2 | hz2
  · rw [get_rgb_band2 hz hz2]
    have hp0 : (0 : ℚ) ≤ (z - 375) / 375 := by
      apply div_nonneg <;> linarith
    have hp1 : (z - 375) / 375 ≤ 1 := by rw [div_le_one (by norm_num)]; linarith
    have hb := pyInt_range255 (q := 255 - 255 * ((z - 375) / 375))
      (by nlinarith) (by nlinarith)
    exact ⟨hb.1, hb.2, by norm_num, by norm_num, by norm_num, by norm_num⟩
  rcases lt_or_le z 1125 with hz3 | hz3
  · rw [get_rgb_band3 hz2 hz3]
    have hp0 : (0 : ℚ) ≤ (z - 750) / 375 := by
      apply div_nonneg <;> linarith
    have hp1 : (z - 750) / 375 ≤ 1 := by rw [div_le_one (by norm_num)]; linarith
    have hb := pyInt_range255 (q := 255 * ((z - 750) / 375))
      (by nlinarith) (by nlinarith)
    exact ⟨by norm_num, by norm_num, by norm_num, by norm_num, hb.1, hb.2⟩
  · rw [get_rgb_band4 hz3 h1]
    have hp0 : (0 : ℚ) ≤ (z - 1125) / 375 := by
      apply div_nonneg <;> linarith
    have hp1 : (z - 1125) / 375 ≤ 1 := by rw [div_le_one (by norm_num)]; linarith
    have hb := pyInt_range255 (q := 255 - 255 * ((z - 1125) / 375))
      (by nlinarith) (by nlinarith)
    exact ⟨by norm_num, by norm_num, hb.1, hb.2, by norm_num, by norm_num⟩

/-- Witness for C5: the channel bounds instantiated at z = 100. -/
theorem depth_to_rgb_channels_in_range_witness :
    (0 ≤ (100 : ℚ) ∧ (100 : ℚ) ≤ 1500) ∧
    (0 ≤ (get_rgb_colors_of_point_at_distance 100).1 ∧
     (get_rgb_colors_of_point_at_distance 100).1 ≤ 255 ∧
     0 ≤ (get_rgb_colors_of_point_at_distance 100).2.1 ∧
     (get_rgb_colors_of_point_at_distance 100).2.1 ≤ 255 ∧
     0 ≤ (get_rgb_colors_of_point_at_distance 100).2.2 ∧
     (get_rgb_colors_of_point_at_distance 100).2.2 ≤ 255) :=
  ⟨⟨by norm_num, by norm_num⟩,
   depth_to_rgb_channels_in_range 100 (by norm_num) (by norm_num)⟩

/-! Buffer-level colorize functions of py_helios_heatmap.py. -/

/-- A Coord3D_ABCY16 range-image buffer as the colorize functions see it:
image dimensions plus the raw channel data, one unsigned 16-bit value per
channel, four channels (x, y, z, intensity) per pixel in row-major order. -/
structure Buffer3D where
  width : ℕ
  height : ℕ
  pdata16 : List ℕ

/-- A well-formed 4-channel 16-bit depth buffer: one 16-bit word per channel,
four channels per pixel. -/
def Buffer3D.valid (b : Buffer3D) : Prop :=
  b.pdata16.length = 4 * (b.width * b.height) ∧ ∀ v ∈ b.pdata16, v < 65536

instance (b : Buffer3D) : Decidable b.valid := by
  unfold Buffer3D.valid
  infer_instance

/-- The three bytes written for pixel i by the loop body of
`get_a_BGR8_distance_heatmap_ctype_array` (lines 183-211): the raw z channel
is read through the c_int16 view, scaled by scale_z, truncated by int(),
mapped through the colormap, and stored into c_byte cells in blue, green,
red order. -/
def bgrPixelBytes (b : Buffer3D) (scale_z : ℚ) (i : ℕ) : List ℕ :=
  let z0 := int16OfRaw (b.pdata16.getD (4 * i + 2) 0)
  let z := pyInt ((z0 : ℚ) * scale_z)
  let c := get_rgb_colors_of_point_at_distance (z : ℚ)
  [byteOf c.2.2, byteOf c.2.1, byteOf c.1]

/-- The three bytes written for pixel i by the loop body of
`get_a_RGB_colring_ctype_array` (lines 259-287): identical computation, but
stored in red, green, blue order. -/
def rgbPixelBytes (b : Buffer3D) (scale_z : ℚ) (i : ℕ) : List ℕ :=
  let z0 := int16OfRaw (b.pdata16.getD (4 * i + 2) 0)
  let z := pyInt ((z0 : ℚ) * scale_z)
  let c := get_rgb_colors_of_point_at_distance (z : ℚ)
  [byteOf c.1, byteOf c.2.1, byteOf c.2.2]

/-- The packed output array built by iterating the per-pixel loop body from
pixel index i for n pixels, three bytes per pixel. -/
def packPixels (f : ℕ → List ℕ) : ℕ → ℕ → List ℕ
  | _, 0 => []
  | i, n + 1 => f i ++ packPixels f (i + 1) n

/-- py_helios_heatmap.py, `get_a_BGR8_distance_heatmap_ctype_array`
(lines 140-213): the returned c_byte array. Lines 166-169 set
BGR8_channels_per_pixel = 3 and BGR8_channel_size_bits = 8, then compute
BGR8_pixel_size_bytes = BGR8_channel_size_bits * BGR8_channels_per_pixel
= 8 * 3 and allocate the zero-initialized array
c_byte * (BGR8_pixel_size_bytes * number_of_pixels), i.e. (8 * 3) bytes per
pixel. The loop (lines 183-211) writes the three heat-map bytes of pixel i
at consecutive offsets 3i, 3i+1, 3i+2 and touches nothing else, so the
returned array is the 3 * number_of_pixels written bytes followed by the
remaining still-zero cells. -/
def get_a_BGR8_distance_heatmap_ctype_array (b : Buffer3D) (scale_z : ℚ) : List ℕ :=
  packPixels (bgrPixelBytes b scale_z) 0 (b.width * b.height)
    ++ List.replicate
      ((8 * 3) * (b.width * b.height) - 3 * (b.width * b.height)) 0

/-- py_helios_heatmap.py, `get_a_RGB_colring_ctype_array` (lines 216-289):
the returned c_byte array. Lines 242-245 compute
RGB8_pixel_size_bytes = RGB8_channel_size_bits * RGB8_channels_per_pixel
= 8 * 3 and allocate a zero-initialized array of (8 * 3) bytes per pixel;
the loop (lines 259-287) writes three bytes per pixel at offsets
3i, 3i+1, 3i+2, leaving the rest zero. -/
def get_a_RGB_colring_ctype_array (b : Buffer3D) (scale_z : ℚ) : List ℕ :=
  packPixels (rgbPixelBytes b scale_z) 0 (b.width * b.height)
    ++ List.replicate
      ((8 * 3) * (b.width * b.height) - 3 * (b.width * b.height)) 0

theorem packPixels_length (f : ℕ → List ℕ) (hf : ∀ j, (f j).length = 3) :
    ∀ (n i : ℕ), (packPixels f i n).length = 3 * n := by
  intro n
  induction n with
  | zero => intro i; rfl
  | succ m ih =>
    intro i
    show (f i ++ packPixels f (i + 1) m).length = 3 * (m + 1)
    rw [List.length_append, hf i, ih (i + 1)]
    ring

theorem packPixels_getD (f : ℕ → List ℕ) (hf : ∀ j, (f j).length = 3)
    (d : ℕ) : ∀ (n i j k : ℕ), i < n → k < 3 →
    (packPixels f j n).getD (3 * i + k) d = (f (j + i)).getD k d := by
  intro n
  induction n with
  | zero => intro i j k hi; omega
  | succ m ih =>
    intro i j k hi hk
    cases i with
    | zero =>
      show (f j ++ packPixels f (j + 1) m).getD (3 * 0 + k) d = _
      rw [List.getD_append]
      · norm_num
      · rw [hf j]; omega
    | succ i' =>
      show (f j ++ packPixels f (j + 1) m).getD (3 * (i' + 1) + k) d = _
      rw [List.getD_append_right]
      · rw [hf j]
        have he : 3 * (i' + 1) + k - 3 = 3 * i' + k := by omega
        rw [he, ih i' (j + 1) k (by omega) hk]
        have hj : j + 1 + i' = j + (i' + 1) := by omega
        rw [hj]
      · rw [hf j]; omega

theorem packPixels_getD0 (f : ℕ → List ℕ) (hf : ∀ j, (f j).length = 3)
    (d n i : ℕ) (h : i < n) :
    (packPixels f 0 n).getD (3 * i) d = (f i).getD 0 d := by
  have hg := packPixels_getD f hf d n i 0 0 h (by omega)
  simpa using hg

theorem bgrPixelBytes_length (b : Buffer3D) (s : ℚ) (i : ℕ) :
    (bgrPixelBytes b s i).length = 3 := rfl

theorem rgbPixelBytes_length (b : Buffer3D) (s : ℚ) (i : ℕ) :
    (rgbPixelBytes b s i).length = 3 := rfl

/-- Reading one of the written byte positions 3i+k (k < 3, pixel i in range)
of an output array: the zero padding after the 3n written bytes is never
reached. -/
theorem colorize_getD_written (f : ℕ → List ℕ) (hf : ∀ j, (f j).length = 3)
    (m n i k d : ℕ) (hi : i < n) (hk : k < 3) :
    (packPixels f 0 n ++ List.replicate m 0).getD (3 * i + k) d
      = (f i).getD k d := by
  rw [List.getD_append _ _ _ _ (by rw [packPixels_length f hf]; omega),
    packPixels_getD f hf d n i 0 k hi hk, Nat.zero_add]

/-- Variant of the previous lemma for the first byte of a pixel, whose
offset is written 3i rather than 3i+0. -/
theorem colorize_getD_written0 (f : ℕ → List ℕ) (hf : ∀ j, (f j).length = 3)
    (m n i d : ℕ) (hi : i < n) :
    (packPixels f 0 n ++ List.replicate m 0).getD (3 * i) d
      = (f i).getD 0 d := by
  rw [List.getD_append _ _ _ _ (by rw [packPixels_length f hf]; omega),
    packPixels_getD0 f hf d n i hi]

/-- Claim C3 is refuted by the code: the allocation lines multiply the
channel size in bits (8) by the channel count (3), so both colorize
functions allocate and return a c_byte array of (8 * 3) * pixel_count = 24
* pixel_count bytes, of which only the first 3 * pixel_count are written;
the claimed length 3 * pixel_count fails on any buffer with at least one
pixel. -/
theorem colorize_output_length_bug :
    (∀ (b : Buffer3D) (s : ℚ),
      (get_a_BGR8_distance_heatmap_ctype_array b s).length
        = (8 * 3) * (b.width * b.height) ∧
      (get_a_RGB_colring_ctype_array b s).length
        = (8 * 3) * (b.width * b.height)) ∧
    (get_a_BGR8_distance_heatmap_ctype_array
      (Buffer3D.mk 1 2 [0, 0, 100, 0, 0, 0, 40000, 0]) 1).length ≠ 3 * (1 * 2) ∧
    (get_a_RGB_colring_ctype_array
      (Buffer3D.mk 1 2 [0, 0, 100, 0, 0, 0, 40000, 0]) 1).length ≠ 3 * (1 * 2) := by
  have hgen : ∀ (b : Buffer3D) (s : ℚ),
      (get_a_BGR8_distance_heatmap_ctype_array b s).length
        = (8 * 3) * (b.width * b.height) ∧
      (get_a_RGB_colring_ctype_array b s).length
        = (8 * 3) * (b.width * b.height) := by
    intro b s
    unfold get_a_BGR8_distance_heatmap_ctype_array get_a_RGB_colring_ctype_array
    constructor
    · rw [List.length_append, packPixels_length _ (bgrPixelBytes_length b s),
        List.length_replicate]
      omega
    · rw [List.length_append, packPixels_length _ (rgbPixelBytes_length b s),
        List.length_replicate]
      omega
  refine ⟨hgen, ?_, ?_⟩
  · rw [(hgen (Buffer3D.mk 1 2 [0, 0, 100, 0, 0, 0, 40000, 0]) 1).1]
    norm_num
  · rw [(hgen (Buffer3D.mk 1 2 [0, 0, 100, 0, 0, 0, 40000, 0]) 1).2]
    norm_num

/-- Claim C4: for the same input buffer and scale factor, the BGR and RGB
colorize outputs agree byte for byte up to swapping channels 0 and 2 inside
each pixel's 3-byte group. -/
theorem colorize_bgr_rgb_swap (b : Buffer3D) (s : ℚ) (i : ℕ)
    (h : i < b.width * b.height) :
    (get_a_BGR8_distance_heatmap_ctype_array b s).getD (3 * i) 0
      = (get_a_RGB_colring_ctype_array b s).getD (3 * i + 2) 0 ∧
    (get_a_BGR8_distance_heatmap_ctype_array b s).getD (3 * i + 1) 0
      = (get_a_RGB_colring_ctype_array b s).getD (3 * i + 1) 0 ∧
    (get_a_BGR8_distance_heatmap_ctype_array b s).getD (3 * i + 2) 0
      = (get_a_RGB_colring_ctype_array b s).getD (3 * i) 0 := by
  unfold get_a_BGR8_distance_heatmap_ctype_array get_a_RGB_colring_ctype_array
  refine ⟨?_, ?_, ?_⟩
  · rw [colorize_getD_written0 _ (bgrPixelBytes_length b s) _ _ i 0 h,
      colorize_getD_written _ (rgbPixelBytes_length b s) _ _ i 2 0 h (by omega)]
    rfl
  · rw [colorize_getD_written _ (bgrPixelBytes_length b s) _ _ i 1 0 h (by omega),
      colorize_getD_written _ (rgbPixelBytes_length b s) _ _ i 1 0 h (by omega)]
    rfl
  · rw [colorize_getD_written _ (bgrPixelBytes_length b s) _ _ i 2 0 h (by omega),
      colorize_getD_written0 _ (rgbPixelBytes_length b s) _ _ i 0 h]
    rfl

/-- Witness for C4: the swap relation evaluated at pixel 0 of a concrete
1-by-1 buffer. -/
theorem colorize_bgr_rgb_swap_witness :
    0 < 1 * 1 ∧
    ((get_a_BGR8_distance_heatmap_ctype_array
        (Buffer3D.mk 1 1 [0, 0, 100, 0]) 1).getD 0 0
      = (get_a_RGB_colring_ctype_array
        (Buffer3D.mk 1 1 [0, 0, 100, 0]) 1).getD 2 0 ∧
     (get_a_BGR8_distance_heatmap_ctype_array
        (Buffer3D.mk 1 1 [0, 0, 100, 0]) 1).getD 1 0
      = (get_a_RGB_colring_ctype_array
        (Buffer3D.mk 1 1 [0, 0, 100, 0]) 1).getD 1 0 ∧
     (get_a_BGR8_distance_heatmap_ctype_array
        (Buffer3D.mk 1 1 [0, 0, 100, 0]) 1).getD 2 0
      = (get_a_RGB_colring_ctype_array
        (Buffer3D.mk 1 1 [0, 0, 100, 0]) 1).getD 0 0) := by
  refine ⟨by decide, ?_⟩
  have h := colorize_bgr_rgb_swap (Buffer3D.mk 1 1 [0, 0, 100, 0]) 1 0 (by decide)
  simpa using h

/-! Signed reinterpretation of the z channel (claim C10). -/

theorem get_rgb_zero : get_rgb_colors_of_point_at_distance 0 = (255, 0, 0) := by
  rw [get_rgb_band1 le_rfl (by norm_num)]
  have h : (255 : ℚ) * (0 / 375) = ((0 : ℤ) : ℚ) := by norm_num
  rw [h, pyInt_intCast]

/-- Counterexample to claim C10: with raw z channel 32768 (so the c_int16
view reads -32768) and the positive scale factor 1/65536, the scaled value
-1/2 is truncated by int() to 0, so the pixel is colored pure red, not
black (the written bytes of the output arrays are [0,0,255] and [255,0,0]
respectively, followed by the 21 unwritten zero cells of the over-sized
allocation). -/
theorem colorize_high_raw_small_scale_not_black :
    get_a_BGR8_distance_heatmap_ctype_array
      (Buffer3D.mk 1 1 [0, 0, 32768, 0]) (1 / 65536)
      = [0, 0, 255] ++ List.replicate 21 0 ∧
    get_a_RGB_colring_ctype_array
      (Buffer3D.mk 1 1 [0, 0, 32768, 0]) (1 / 65536)
      = [255, 0, 0] ++ List.replicate 21 0 := by
  have hz : pyInt (((-32768 : ℤ) : ℚ) * (1 / 65536)) = 0 := by
    apply pyInt_eq_zero <;> norm_num
  have hcast : (((0 : ℤ) : ℚ)) = (0 : ℚ) := by norm_num
  have hb : bgrPixelBytes (Buffer3D.mk 1 1 [0, 0, 32768, 0]) (1 / 65536) 0
      = [byteOf (get_rgb_colors_of_point_at_distance
            ((pyInt (((-32768 : ℤ) : ℚ) * (1 / 65536)) : ℤ) : ℚ)).2.2,
         byteOf (get_rgb_colors_of_point_at_distance
            ((pyInt (((-32768 : ℤ) : ℚ) * (1 / 65536)) : ℤ) : ℚ)).2.1,
         byteOf (get_rgb_colors_of_point_at_distance
            ((pyInt (((-32768 : ℤ) : ℚ) * (1 / 65536)) : ℤ) : ℚ)).1] := rfl
  have hr : rgbPixelBytes (Buffer3D.mk 1 1 [0, 0, 32768, 0]) (1 / 65536) 0
      = [byteOf (get_rgb_colors_of_point_at_distance
            ((pyInt (((-32768 : ℤ) : ℚ) * (1 / 65536)) : ℤ) : ℚ)).1,
         byteOf (get_rgb_colors_of_point_at_distance
            ((pyInt (((-32768 : ℤ) : ℚ) * (1 / 65536)) : ℤ) : ℚ)).2.1,
         byteOf (get_rgb_colors_of_point_at_distance
            ((pyInt (((-32768 : ℤ) : ℚ) * (1 / 65536)) : ℤ) : ℚ)).2.2] := rfl
  rw [hz, hcast, get_rgb_zero] at hb hr
  constructor
  · rw [show get_a_BGR8_distance_heatmap_ctype_array
        (Buffer3D.mk 1 1 [0, 0, 32768, 0]) (1 / 65536)
        = (bgrPixelBytes (Buffer3D.mk 1 1 [0, 0, 32768, 0]) (1 / 65536) 0
          ++ ([] : List ℕ)) ++ List.replicate 21 0 from rfl, hb]
    rfl
  · rw [show get_a_RGB_colring_ctype_array
        (Buffer3D.mk 1 1 [0, 0, 32768, 0]) (1 / 65536)
        = (rgbPixelBytes (Buffer3D.mk 1 1 [0, 0, 32768, 0]) (1 / 65536) 0
          ++ ([] : List ℕ)) ++ List.replicate 21 0 from rfl, hr]
    rfl

/-- Claim C10 amended: both colorize functions reinterpret the raw 16-bit z
channel as a signed int16, so a raw value of at least 32768 is read as
raw - 65536 (negative); whenever the scaled value (raw - 65536) * scale_z
is at most -1 (in particular for any scale_z of at least 1), the truncated
z is negative, the point falls outside every color band, and the pixel is
colored black in both output arrays. For positive scales small enough that
the scaled value exceeds -1 the truncation yields 0 and the pixel is
colored red instead. -/
theorem colorize_signed_reinterpretation (b : Buffer3D) (s : ℚ) (i : ℕ)
    (hi : i < b.width * b.height)
    (hraw : 32768 ≤ b.pdata16.getD (4 * i + 2) 0)
    (hs : ((b.pdata16.getD (4 * i + 2) 0 : ℚ) - 65536) * s ≤ -1) :
    int16OfRaw (b.pdata16.getD (4 * i + 2) 0)
      = (b.pdata16.getD (4 * i + 2) 0 : ℤ) - 65536 ∧
    (∀ k, k < 3 →
      (get_a_BGR8_distance_heatmap_ctype_array b s).getD (3 * i + k) 0 = 0) ∧
    (∀ k, k < 3 →
      (get_a_RGB_colring_ctype_array b s).getD (3 * i + k) 0 = 0) := by
  have h16 : int16OfRaw (b.pdata16.getD (4 * i + 2) 0)
      = (b.pdata16.getD (4 * i + 2) 0 : ℤ) - 65536 := by
    unfold int16OfRaw
    rw [if_neg (by omega)]
  have hq : ((int16OfRaw (b.pdata16.getD (4 * i + 2) 0) : ℤ) : ℚ) * s ≤ -1 := by
    rw [h16]
    push_cast
    linarith
  have hpz : pyInt ((int16OfRaw (b.pdata16.getD (4 * i + 2) 0) : ℚ) * s) ≤ -1 := by
    apply pyInt_le
    exact_mod_cast hq
  have hc : get_rgb_colors_of_point_at_distance
      ((pyInt ((int16OfRaw (b.pdata16.getD (4 * i + 2) 0) : ℚ) * s) : ℤ) : ℚ)
      = (0, 0, 0) := by
    apply get_rgb_outside
    left
    have h1 : ((pyInt ((int16OfRaw (b.pdata16.getD (4 * i + 2) 0) : ℚ) * s) : ℤ) : ℚ)
        ≤ ((-1 : ℤ) : ℚ) := by exact_mod_cast hpz
    have h2 : ((-1 : ℤ) : ℚ) < 0 := by norm_num
    exact lt_of_le_of_lt h1 h2
  have hbb : bgrPixelBytes b s i = [0, 0, 0] := by
    simp only [bgrPixelBytes, hc]
    rfl
  have hrb : rgbPixelBytes b s i = [0, 0, 0] := by
    simp only [rgbPixelBytes, hc]
    rfl
  refine ⟨h16, ?_, ?_⟩
  · intro k hk
    unfold get_a_BGR8_distance_heatmap_ctype_array
    rw [colorize_getD_written _ (bgrPixelBytes_length b s) _ _ i k 0 hi hk, hbb]
    rcases k with _ | _ | _ | n
    · rfl
    · rfl
    · rfl
    · omega
  · intro k hk
    unfold get_a_RGB_colring_ctype_array
    rw [colorize_getD_written _ (rgbPixelBytes_length b s) _ _ i k 0 hi hk, hrb]
    rcases k with _ | _ | _ | n
    · rfl
    · rfl
    · rfl
    · omega

/-- Witness for C10 amended: a 1-by-1 buffer with raw z channel 40000 and
scale factor 1 is colored black in both outputs. -/
theorem colorize_signed_reinterpretation_witness :
    (0 < 1 * 1 ∧
     32768 ≤ (Buffer3D.mk 1 1 [0, 0, 40000, 0]).pdata16.getD (4 * 0 + 2) 0 ∧
     (((Buffer3D.mk 1 1 [0, 0, 40000, 0]).pdata16.getD (4 * 0 + 2) 0 : ℚ) - 65536)
       * 1 ≤ -1) ∧
    (int16OfRaw ((Buffer3D.mk 1 1 [0, 0, 40000, 0]).pdata16.getD (4 * 0 + 2) 0)
      = ((Buffer3D.mk 1 1 [0, 0, 40000, 0]).pdata16.getD (4 * 0 + 2) 0 : ℤ) - 65536 ∧
     (∀ k, k < 3 →
       (get_a_BGR8_distance_heatmap_ctype_array
         (Buffer3D.mk 1 1 [0, 0, 40000, 0]) 1).getD (3 * 0 + k) 0 = 0) ∧
     (∀ k, k < 3 →
       (get_a_RGB_colring_ctype_array
         (Buffer3D.mk 1 1 [0, 0, 40000, 0]) 1).getD (3 * 0 + k) 0 = 0)) :=
  ⟨⟨by decide, by decide, by norm_num [List.getD_cons_succ, List.getD_cons_zero]⟩,
   colorize_signed_reinterpretation (Buffer3D.mk 1 1 [0, 0, 40000, 0]) 1 0
     (by decide) (by decide)
     (by norm_num [List.getD_cons_succ, List.getD_cons_zero])⟩

/-! Device-acquisition retry loop (claim C6).

The enumeration performed by `system.create_device()` is an external
collaborator call; it is modelled as a function from the current value of
the `tries` counter (the number of failed attempts so far) to the device
list that call returns. `tries_max` is a parameter (py_acquisition.py and
py_save_writer_png.py hardcode 6, py_save_recorder.py hardcodes 5,
py_helios_heatmap.py hardcodes 1). The sleep between attempts is wall-clock
time and does not affect the result. The returned pair carries the number
of enumeration attempts actually performed. -/

def noDeviceMessage : String :=
  "  No device found! Please connect a device and run the example again."

/-- Loop body of `create_devices_with_tries` in py_acquisition.py
(lines 37-56): while tries < tries_max, enumerate; on an empty result sleep
and increment tries, otherwise return the devices. Exhaustion raises. -/
def createDevicesGo (enum : ℕ → List ℕ) : ℕ → ℕ → Except (String × ℕ) (List ℕ × ℕ)
  | tries, 0 => Except.error (noDeviceMessage, tries)
  | tries, remaining + 1 =>
    let devices := enum tries
    if devices.isEmpty then createDevicesGo enum (tries + 1) remaining
    else Except.ok (devices, tries + 1)

/-- py_acquisition.py, `create_devices_with_tries` (lines 31-56), with the
try budget and the enumeration collaborator as parameters. -/
def create_devices_with_tries (tries_max : ℕ) (enum : ℕ → List ℕ) :
    Except (String × ℕ) (List ℕ × ℕ) :=
  createDevicesGo enum 0 tries_max

/-- py_save_recorder.py, `create_devices_with_tries` (lines 33-59): same
loop, but on exhaustion it prints the message and returns None instead of
raising. -/
def create_devices_with_tries_recorder_go (enum : ℕ → List ℕ) :
    ℕ → ℕ → Option (List ℕ) × ℕ
  | tries, 0 => (none, tries)
  | tries, remaining + 1 =>
    let devices := enum tries
    if devices.isEmpty then create_devices_with_tries_recorder_go enum (tries + 1) remaining
    else (some devices, tries + 1)

def create_devices_with_tries_recorder (tries_max : ℕ) (enum : ℕ → List ℕ) :
    Option (List ℕ) × ℕ :=
  create_devices_with_tries_recorder_go enum 0 tries_max

/-- Enumeration stub that returns a non-empty device list on the third
attempt (tries counter 2) and an empty list otherwise. -/
def stubNonEmptyOnThird : ℕ → List ℕ := fun i => if i = 2 then [7] else []

theorem createDevicesGo_all_empty (enum : ℕ → List ℕ)
    (hemp : ∀ i, enum i = []) :
    ∀ (n t : ℕ), createDevicesGo enum t n = Except.error (noDeviceMessage, t + n) := by
  intro n
  induction n with
  | zero => intro t; rfl
  | succ m ih =>
    intro t
    show (if (enum t).isEmpty then createDevicesGo enum (t + 1) m
          else Except.ok (enum t, t + 1)) = _
    rw [hemp t]
    simp only [List.isEmpty_nil, if_true, ih (t + 1)]
    have ht : t + 1 + m = t + (m + 1) := by omega
    rw [ht]

theorem create_devices_recorder_all_empty (enum : ℕ → List ℕ)
    (hemp : ∀ i, enum i = []) :
    ∀ (n t : ℕ),
      create_devices_with_tries_recorder_go enum t n = (none, t + n) := by
  intro n
  induction n with
  | zero => intro t; rfl
  | succ m ih =>
    intro t
    show (if (enum t).isEmpty then create_devices_with_tries_recorder_go enum (t + 1) m
          else (some (enum t), t + 1)) = _
    rw [hemp t]
    simp only [List.isEmpty_nil, if_true, ih (t + 1)]
    have ht : t + 1 + m = t + (m + 1) := by omega
    rw [ht]

/-- Counterexample to claim C6 as stated: the py_save_recorder.py variant of
create_devices_with_tries does not raise when every enumeration is empty; it
prints the message and returns None (here after its hardcoded 5 attempts). -/
theorem create_devices_recorder_returns_none :
    create_devices_with_tries_recorder 5 (fun _ => []) = (none, 5) := by
  have h := create_devices_recorder_all_empty (fun _ => []) (fun _ => rfl) 5 0
  simpa [create_devices_with_tries_recorder] using h

/-- Claim C6 amended: the retry loop returns the device list of the first
non-empty enumeration (with a stub non-empty on attempt 3 of tries_max = 6
it succeeds after exactly 3 attempts); when every enumeration is empty, the
py_acquisition.py variant raises the no-device error after exactly
tries_max attempts, while the py_save_recorder.py variant returns None
after exactly tries_max attempts. -/
theorem create_devices_retry_behavior :
    create_devices_with_tries 6 stubNonEmptyOnThird = Except.ok ([7], 3) ∧
    (∀ (tries_max : ℕ) (enum : ℕ → List ℕ), (∀ i, enum i = []) →
      create_devices_with_tries tries_max enum
        = Except.error (noDeviceMessage, tries_max)) ∧
    (∀ (tries_max : ℕ) (enum : ℕ → List ℕ), (∀ i, enum i = []) →
      create_devices_with_tries_recorder tries_max enum = (none, tries_max)) := by
  refine ⟨rfl, ?_, ?_⟩
  · intro tm enum hemp
    have h := createDevicesGo_all_empty enum hemp tm 0
    simpa [create_devices_with_tries] using h
  · intro tm enum hemp
    have h := create_devices_recorder_all_empty enum hemp tm 0
    simpa [create_devices_with_tries_recorder] using h

/-- Witness for C6: the exhaustion clauses applied to the always-empty stub
with a try budget of 2 (and the success clause restated). -/
theorem create_devices_retry_behavior_witness :
    create_devices_with_tries 6 stubNonEmptyOnThird = Except.ok ([7], 3) ∧
    create_devices_with_tries 2 (fun _ => []) = Except.error (noDeviceMessage, 2) ∧
    create_devices_with_tries_recorder 2 (fun _ => []) = (none, 2) :=
  ⟨create_devices_retry_behavior.1,
   create_devices_retry_behavior.2.1 2 (fun _ => []) (fun _ => rfl),
   create_devices_retry_behavior.2.2 2 (fun _ => []) (fun _ => rfl)⟩

/-! Configuration save/restore (claim C7). -/

/-- The device and stream configuration keys touched by
py_acquisition.py, `configure_and_get_image_buffers`. -/
structure DeviceState where
  acquisitionMode : String
  streamBufferHandlingMode : String
  streamAutoNegotiatePacketSize : Bool
  streamPacketResendEnable : Bool
  width : ℕ
  height : ℕ
  widthMax : ℕ
  heightMax : ℕ

/-- py_acquisition.py, `configure_and_get_image_buffers` (lines 59-160),
restricted to its effect on the configuration nodes: capture Width, Height
and AcquisitionMode, set AcquisitionMode, StreamBufferHandlingMode, the two
stream flags, Width and Height, then (after the streaming section, which
writes no nodes) restore AcquisitionMode, Width and Height. -/
def configure_and_get_image_buffers (d0 : DeviceState) : DeviceState :=
  let width_initial := d0.width
  let height_initial := d0.height
  let initial_acquisition_mode := d0.acquisitionMode
  let d1 := { d0 with acquisitionMode := "Continuous" }
  let d2 := { d1 with streamBufferHandlingMode := "NewestOnly" }
  let d3 := { d2 with streamAutoNegotiatePacketSize := true }
  let d4 := { d3 with streamPacketResendEnable := true }
  let d5 := { d4 with width := d4.widthMax, height := d4.heightMax }
  let d6 := { d5 with acquisitionMode := initial_acquisition_mode }
  let d7 := { d6 with width := width_initial }
  { d7 with height := height_initial }

/-- The configuration keys touched by py_helios_heatmap.py,
`example_entry_point`. -/
structure HeliosState where
  pixelFormat : String
  scan3dOperatingMode : String
  scan3dCoordinateSelector : String
  streamAutoNegotiatePacketSize : Bool
  streamPacketResendEnable : Bool

/-- py_helios_heatmap.py, `example_entry_point` (lines 311-431), restricted
to its effect on the configuration nodes: set the two stream flags, capture
PixelFormat and Scan3dOperatingMode, set PixelFormat, Scan3dOperatingMode
and Scan3dCoordinateSelector, then after streaming restore PixelFormat and
Scan3dOperatingMode only. -/
def helios_example_node_updates (isHelios2 : Bool) (d0 : HeliosState) : HeliosState :=
  let d1 := { d0 with streamAutoNegotiatePacketSize := true }
  let d2 := { d1 with streamPacketResendEnable := true }
  let pixelFormat_initial := d2.pixelFormat
  let operating_mode_initial := d2.scan3dOperatingMode
  let d3 := { d2 with pixelFormat := "Coord3D_ABCY16" }
  let d4 := if isHelios2 then { d3 with scan3dOperatingMode := "Distance3000mmSingleFreq" }
            else { d3 with scan3dOperatingMode := "Distance1500mm" }
  let d5 := { d4 with scan3dCoordinateSelector := "CoordinateC" }
  let d6 := { d5 with pixelFormat := pixelFormat_initial }
  { d6 with scan3dOperatingMode := operating_mode_initial }

/-- Counterexample to claim C7: StreamBufferHandlingMode is mutated by the
session but not captured, so its value at session end is the configured
constant, not the initial value. -/
theorem configure_restore_not_complete :
    (configure_and_get_image_buffers
      (DeviceState.mk "Single" "OldestFirst" false false 10 10 100 100)
     ).streamBufferHandlingMode
    ≠ (DeviceState.mk "Single" "OldestFirst" false false 10 10 100 100
      ).streamBufferHandlingMode := by
  decide

/-- Claim C7 amended: the configure-then-restore round trip holds exactly
for the keys whose initial values are captured -- AcquisitionMode, Width and
Height in py_acquisition.py, and PixelFormat and Scan3dOperatingMode in
py_helios_heatmap.py; the keys mutated without capture
(StreamBufferHandlingMode, the two stream flags, Scan3dCoordinateSelector)
keep their configured values at session end. -/
theorem configure_restore_round_trip (d : DeviceState) (hs : HeliosState)
    (isHelios2 : Bool) :
    (configure_and_get_image_buffers d).acquisitionMode = d.acquisitionMode ∧
    (configure_and_get_image_buffers d).width = d.width ∧
    (configure_and_get_image_buffers d).height = d.height ∧
    (configure_and_get_image_buffers d).streamBufferHandlingMode = "NewestOnly" ∧
    (configure_and_get_image_buffers d).streamAutoNegotiatePacketSize = true ∧
    (configure_and_get_image_buffers d).streamPacketResendEnable = true ∧
    (helios_example_node_updates isHelios2 hs).pixelFormat = hs.pixelFormat ∧
    (helios_example_node_updates isHelios2 hs).scan3dOperatingMode
      = hs.scan3dOperatingMode ∧
    (helios_example_node_updates isHelios2 hs).scan3dCoordinateSelector
      = "CoordinateC" ∧
    (helios_example_node_updates isHelios2 hs).streamAutoNegotiatePacketSize = true ∧
    (helios_example_node_updates isHelios2 hs).streamPacketResendEnable = true := by
  unfold configure_and_get_image_buffers helios_example_node_updates
  cases isHelios2 <;> simp

/-! Stream stop on exit paths (claim C8). -/

/-- Stream scope of py_save_writer_png.py, `example_entry_point`
(lines 111-135): device.start_stream() is a plain call, the body
(get_buffer, save, requeue_buffer) follows, and device.stop_stream() is
another plain call after it; there is no context manager and no try/finally,
so an exception from the body propagates before the stop line runs. The
result records whether the device is still streaming when the function
terminates, together with the propagated outcome of the body. -/
def png_example_session (body : Except String Unit) : Bool × Except String Unit :=
  match body with
  | Except.error e => (true, Except.error e)
  | Except.ok () => (false, Except.ok ())

/-- Stream scope of py_helios_heatmap.py, `example_entry_point`
(lines 347-425): the body runs inside `with device.start_stream(1)`, whose
context manager calls Device.stop_stream() on every exit, normal or
exceptional, before the outcome propagates. -/
def helios_example_session (body : Except String Unit) : Bool × Except String Unit :=
  (false, body)

/-- Counterexample to claim C8: in py_save_writer_png.py an error raised
after the stream has started propagates without stop_stream being invoked,
leaving the device streaming. -/
theorem png_session_error_leaves_streaming :
    png_example_session (Except.error "save failed")
      = (true, Except.error "save failed") := rfl

/-- Claim C8 amended: the heatmap example's context-managed stream scope
stops the stream on every exit path, error or not, before the outcome
propagates; the PNG-writer example stops the stream only on the normal
path, and an error raised after the stream started propagates with the
device still streaming. -/
theorem stream_stop_on_exit_paths :
    (∀ body : Except String Unit, (helios_example_session body).1 = false ∧
      (helios_example_session body).2 = body) ∧
    (png_example_session (Except.ok ())).1 = false ∧
    (∀ e : String, png_example_session (Except.error e)
      = (true, Except.error e)) :=
  ⟨fun _ => ⟨rfl, rfl⟩, rfl, fun _ => rfl⟩

/-! Device-model check (claim C9). -/

/-- Truthiness of a Python string: non-empty strings are truthy. -/
def pyTruthyStr (s : String) : Bool := s ≠ ""

/-- Python substring membership `needle in haystack`. -/
def pyInStr (needle haystack : String) : Bool :=
  (haystack.splitOn needle).length > 1

/-- py_helios_heatmap.py, `validate_device` line 98: the condition
`'HLT' or 'HTP' in device_model_name_node`. Python parses this as
`'HLT' or ('HTP' in device_model_name_node)`, whose truth value is that of
the literal 'HLT' whenever that literal is truthy. -/
def validate_device_model_check (device_model_name_node : String) : Bool :=
  if pyTruthyStr "HLT" then true else pyInStr "HTP" device_model_name_node

/-- py_helios_heatmap.py, `validate_device` lines 96-100: effect on the
global isHelios2 flag. -/
def validate_device_isHelios2 (device_model_name_node : String)
    (isHelios2 : Bool) : Bool :=
  if validate_device_model_check device_model_name_node then true else isHelios2

/-- Claim C9: the device-model condition is independent of its input -- it
is truthy for every model name string, so validate_device sets the
isHelios2 flag to true regardless of the actual model name. -/
theorem validate_device_check_always_true :
    ∀ (name : String) (flag : Bool),
      validate_device_model_check name = true ∧
      validate_device_isHelios2 name flag = true := by
  intro name flag
  constructor <;> rfl
